import Mathlib

/-!
Verification of the loans-app catalogue service's reliable event-delivery
subsystem: the outbox store (`src/infra/adapters/cosmos-outbox-repo.ts`), the
live Event Grid publisher (`src/infra/adapters/event-grid-publisher.ts`), the
outbox drain loop (`src/functions/process-outbox.ts`) and the two status
reconciliation handlers (`src/functions/reservation-events.ts` via
`src/app/update-device-status.ts`, and `src/functions/availability-events.ts`).

The TypeScript code is shallowly embedded: the Cosmos container backing the
outbox is a `List OutboxDocument`; dates (ISO-8601 strings ordered
lexicographically, i.e. chronologically) are modelled as natural-number
timestamps; external effects (device store reads/writes, outbox writes,
network transmission) are injected as explicit outcome values so that every
control path of the source is a computable branch of the Lean definition.
-/

set_option autoImplicit false

/-! ## Domain data model (`src/domain/entities/device.ts`) -/

/-- The `DeviceStatus` enum from `device.ts`. -/
inductive DeviceStatus where
  | Available
  | Unavailable
  | Maintenance
  | Retired
  | Lost
  deriving DecidableEq, Repr

/-- The `Device` entity (`device.ts`). `purchaseDate` and `updatedAt` are
epoch timestamps; `notes` is the optional field of the source type. -/
structure Device where
  id : String
  deviceModelId : String
  serialNumber : String
  assetId : String
  status : DeviceStatus
  condition : String
  notes : Option String
  purchaseDate : Nat
  updatedAt : Nat
  deriving DecidableEq, Repr

/-! ## Outbox store (`src/infra/adapters/cosmos-outbox-repo.ts`) -/

/-- The `OutboxDocument` shape stored in the Cosmos container
(`cosmos-outbox-repo.ts`). `eventTime` and `processedAt` are ISO strings in
the source; since ISO-8601 UTC strings compare lexicographically exactly as
the instants they denote, they are modelled as `Nat` timestamps. `data` is an
opaque payload. -/
structure OutboxDocument where
  id : String
  topic : String
  eventType : String
  subject : String
  data : String
  dataVersion : String
  eventTime : Nat
  processed : Bool
  processedAt : Option Nat
  error : Option String
  retryCount : Nat
  ttl : Option Nat
  deriving DecidableEq, Repr

/-- The `OutboxMessage` domain entity returned by the repo (no `ttl`). -/
structure OutboxMessage where
  id : String
  topic : String
  eventType : String
  subject : String
  data : String
  dataVersion : String
  eventTime : Nat
  processed : Bool
  processedAt : Option Nat
  error : Option String
  retryCount : Nat
  deriving DecidableEq, Repr

namespace CosmosOutboxRepo

/-- `mapToDomain` from `cosmos-outbox-repo.ts` (the `doc.retryCount || 0`
guard is the identity here since `retryCount` is a total `Nat` field). -/
def mapToDomain (doc : OutboxDocument) : OutboxMessage :=
  { id := doc.id
    topic := doc.topic
    eventType := doc.eventType
    subject := doc.subject
    data := doc.data
    dataVersion := doc.dataVersion
    eventTime := doc.eventTime
    processed := doc.processed
    processedAt := doc.processedAt
    error := doc.error
    retryCount := doc.retryCount }

/-- The point read `container.item(id, id).read()`. -/
def readItem (store : List OutboxDocument) (id : String) : Option OutboxDocument :=
  store.find? (fun d => d.id == id)

/-- `item.replace(resource)`: the document with the resource's id is replaced. -/
def replaceItem (store : List OutboxDocument) (doc : OutboxDocument) :
    List OutboxDocument :=
  store.map (fun d => if d.id == doc.id then doc else d)

/-- Ordering used by the `ORDER BY c.eventTime ASC` clause. -/
def byEventTime (a b : OutboxDocument) : Prop :=
  a.eventTime ≤ b.eventTime

instance : DecidableRel byEventTime :=
  fun a b => Nat.decLe a.eventTime b.eventTime

instance : IsTotal OutboxDocument byEventTime :=
  ⟨fun a b => Nat.le_total a.eventTime b.eventTime⟩

instance : IsTrans OutboxDocument byEventTime :=
  ⟨fun _ _ _ h1 h2 => Nat.le_trans h1 h2⟩

/-- `listUnprocessed(batchSize)`: the Cosmos query
`SELECT TOP @batchSize * FROM c WHERE c.processed = false ORDER BY
c.eventTime ASC`, results mapped through `mapToDomain`. -/
def listUnprocessed (store : List OutboxDocument) (batchSize : Nat) :
    List OutboxMessage :=
  (((store.filter (fun d => !d.processed)).insertionSort byEventTime).take
      batchSize).map mapToDomain

/-- The field mutation `markAsProcessed` performs on the document it read:
`processed = true`, `processedAt = now`, `ttl = 7 days`. No other field of
the document is touched. -/
def processedUpdate (r : OutboxDocument) (now : Nat) : OutboxDocument :=
  { r with processed := true, processedAt := some now, ttl := some (60 * 60 * 24 * 7) }

/-- The field mutation `markAsFailed` performs on the document it read:
`retryCount = (retryCount || 0) + 1`, `error = error`. `processed` is not
touched. -/
def failedUpdate (r : OutboxDocument) (error : String) : OutboxDocument :=
  { r with retryCount := r.retryCount + 1, error := some error }

/-- `markAsProcessed(id)`: point read, apply `processedUpdate`, replace;
no-op when the id is absent. -/
def markAsProcessed (store : List OutboxDocument) (id : String) (now : Nat) :
    List OutboxDocument :=
  match readItem store id with
  | none => store
  | some r => replaceItem store (processedUpdate r now)

/-- `markAsFailed(id, error)`: point read, apply `failedUpdate`, replace;
no-op when the id is absent. -/
def markAsFailed (store : List OutboxDocument) (id : String) (error : String) :
    List OutboxDocument :=
  match readItem store id with
  | none => store
  | some r => replaceItem store (failedUpdate r error)

end CosmosOutboxRepo

/-! ## Effect oracles

The handlers call external stores whose outcomes are injected explicitly:
`LoadResult` is the outcome of `deviceRepo.getById` (a device, `null`, or a
thrown store error), `OpResult` the outcome of a fire-and-forget store write
(`deviceRepo.save`, or the outbox append performed by
`OutboxEventPublisher.publish`). -/

/-- Outcome of `deviceRepo.getById(id)`. -/
inductive LoadResult where
  | found (d : Device)
  | notFound
  | storeError (msg : String)
  deriving DecidableEq, Repr

/-- Outcome of a store write (`deviceRepo.save`, outbox `save`). -/
inductive OpResult where
  | ok
  | storeError (msg : String)
  deriving DecidableEq, Repr

/-! ## `updateDeviceStatus` (`src/app/update-device-status.ts`) -/

/-- Dependency outcomes for one `updateDeviceStatus` call: the result the
device load would produce, and the results the device save and the event
publish would produce if reached. -/
structure UpdateDeps where
  getById : LoadResult
  saveResult : OpResult
  publishResult : OpResult
  deriving DecidableEq, Repr

/-- The `UpdateDeviceStatusResult` type from `update-device-status.ts`. -/
structure UpdateDeviceStatusResult where
  success : Bool
  data : Option Device
  error : Option String
  code : Option String
  deriving DecidableEq, Repr

/-- Arguments of an `eventPublisher.publish` call made by
`updateDeviceStatus`: envelope fields plus the `StatusChanged` payload. -/
structure StatusChangedEvent where
  topic : String
  eventType : String
  subject : String
  deviceId : String
  previousStatus : DeviceStatus
  newStatus : DeviceStatus
  updatedAt : Nat
  deriving DecidableEq, Repr

/-- Result of one `updateDeviceStatus` run: the returned value plus the
device writes and event publishes it performed. -/
structure UpdateOutcome where
  result : UpdateDeviceStatusResult
  writes : List Device
  events : List StatusChangedEvent
  deriving DecidableEq, Repr

/-- `updateDeviceStatus` from `update-device-status.ts`. The whole body sits
in a `try` whose `catch` returns `{success:false, error:message}` (no
`code`); `NOT_FOUND` is returned, not thrown. When `deviceRepo.save` throws,
no device write lands; when it succeeds but the subsequent
`eventPublisher.publish` throws, the device write has landed and the error is
caught, so the outcome records the write and no event. -/
def updateDeviceStatus (deps : UpdateDeps) (deviceId : String)
    (status : DeviceStatus) (now : Nat) : UpdateOutcome :=
  match deps.getById with
  | LoadResult.storeError m =>
      { result := { success := false, data := none, error := some m,
                    code := none },
        writes := [], events := [] }
  | LoadResult.notFound =>
      { result := { success := false, data := none,
                    error := some ("Device not found: " ++ deviceId),
                    code := some "NOT_FOUND" },
        writes := [], events := [] }
  | LoadResult.found existing =>
      if existing.status = status then
        { result := { success := true, data := some existing, error := none,
                      code := none },
          writes := [], events := [] }
      else
        let updated : Device := { existing with status := status, updatedAt := now }
        match deps.saveResult with
        | OpResult.storeError m =>
            { result := { success := false, data := none, error := some m,
                          code := none },
              writes := [], events := [] }
        | OpResult.ok =>
            match deps.publishResult with
            | OpResult.storeError m =>
                { result := { success := false, data := none, error := some m,
                              code := none },
                  writes := [updated], events := [] }
            | OpResult.ok =>
                { result := { success := true, data := some updated,
                              error := none, code := none },
                  writes := [updated],
                  events :=
                    [{ topic := "Catalogue",
                       eventType := "Catalogue.Device.StatusChanged",
                       subject := updated.id,
                       deviceId := updated.id,
                       previousStatus := existing.status,
                       newStatus := updated.status,
                       updatedAt := updated.updatedAt }] }

/-! ## Reservation handler (`src/functions/reservation-events.ts`) -/

/-- The fields of `ReservationEventData` the handler inspects (`deviceId`;
the remaining payload fields never influence control flow). A missing or
empty `deviceId` is falsy in the source's `!data?.deviceId` check. -/
structure ReservationEventData where
  reservationId : String
  deviceId : String
  deriving DecidableEq, Repr

/-- An Event Grid event as received by the reservation handler; `data := none`
models an absent/undefined payload. -/
structure ReservationEvent where
  eventType : String
  data : Option ReservationEventData
  deriving DecidableEq, Repr

/-- Observable outcome of one handler invocation: the error it raised to the
delivery mechanism (if any), the device writes and the event publishes. -/
structure HandlerOutcome where
  threw : Option String
  writes : List Device
  events : List StatusChangedEvent
  deriving DecidableEq, Repr

/-- `getDeviceStatusFromEvent` from `reservation-events.ts`: the
`switch (eventType)` mapping reservation lifecycle events to a target status,
`null` for anything unmapped. -/
def getDeviceStatusFromEvent (eventType : String) : Option DeviceStatus :=
  if eventType = "Reservation.Created" ∨ eventType = "Reservation.Collected" then
    some DeviceStatus.Unavailable
  else if eventType = "Reservation.Returned" ∨
      eventType = "Reservation.Cancelled" ∨
      eventType = "Reservation.Expired" then
    some DeviceStatus.Available
  else
    none

/-- `handleReservationEvent` from `reservation-events.ts`: validate
`deviceId`, map the event type, call `updateDeviceStatus`; on a failed result
throw unless the code is `NOT_FOUND`. -/
def handleReservationEvent (deps : UpdateDeps) (ev : ReservationEvent)
    (now : Nat) : HandlerOutcome :=
  match ev.data with
  | none => { threw := none, writes := [], events := [] }
  | some d =>
      if d.deviceId = "" then { threw := none, writes := [], events := [] }
      else
        match getDeviceStatusFromEvent ev.eventType with
        | none => { threw := none, writes := [], events := [] }
        | some newStatus =>
            let o := updateDeviceStatus deps d.deviceId newStatus now
            if o.result.success then
              { threw := none, writes := o.writes, events := o.events }
            else if o.result.code = some "NOT_FOUND" then
              { threw := none, writes := o.writes, events := o.events }
            else
              { threw := some ("Failed to update device " ++ d.deviceId ++ ": "
                  ++ (o.result.error.getD "")),
                writes := o.writes, events := o.events }

/-! ## Availability handler (`src/functions/availability-events.ts`) -/

/-- The fields of `AvailabilityEventData` the handler inspects. Empty strings
stand for the falsy values rejected by `!data?.deviceId` / `!data?.newStatus`. -/
structure AvailabilityEventData where
  deviceId : String
  previousStatus : Option String
  newStatus : String
  reservationId : Option String
  updatedAt : String
  deriving DecidableEq, Repr

/-- An Event Grid event as received by the availability handler. -/
structure AvailabilityEvent where
  eventType : String
  data : Option AvailabilityEventData
  deriving DecidableEq, Repr

/-- Dependency outcomes for one `handleAvailabilityEvent` call (the handler
uses only the device repo — it has no event publisher in scope). -/
structure AvailDeps where
  getById : LoadResult
  saveResult : OpResult
  deriving DecidableEq, Repr

/-- `mapToDeviceStatus` from `availability-events.ts`. -/
def mapToDeviceStatus (status : String) : Option DeviceStatus :=
  if status = "Available" then some DeviceStatus.Available
  else if status = "Unavailable" then some DeviceStatus.Unavailable
  else if status = "Maintenance" then some DeviceStatus.Maintenance
  else if status = "Retired" then some DeviceStatus.Retired
  else if status = "Lost" then some DeviceStatus.Lost
  else none

/-- `handleAvailabilityEvent` from `availability-events.ts`: filter on the
`Availability.Changed` event type, validate `deviceId` and `newStatus`, map
the status string, then load-check-save. A missing device or an unchanged
status returns normally; a load/save error is rethrown wrapped. The handler
publishes no event (it only imports the device repo). -/
def handleAvailabilityEvent (deps : AvailDeps) (ev : AvailabilityEvent)
    (now : Nat) : HandlerOutcome :=
  if ev.eventType = "Availability.Changed" then
    match ev.data with
    | none => { threw := none, writes := [], events := [] }
    | some data =>
        if data.deviceId = "" then { threw := none, writes := [], events := [] }
        else if data.newStatus = "" then
          { threw := none, writes := [], events := [] }
        else
          match mapToDeviceStatus data.newStatus with
          | none => { threw := none, writes := [], events := [] }
          | some newStatus =>
              match deps.getById with
              | LoadResult.storeError m =>
                  { threw := some ("Failed to sync device " ++ data.deviceId
                      ++ ": " ++ m),
                    writes := [], events := [] }
              | LoadResult.notFound =>
                  { threw := none, writes := [], events := [] }
              | LoadResult.found existing =>
                  if existing.status = newStatus then
                    { threw := none, writes := [], events := [] }
                  else
                    match deps.saveResult with
                    | OpResult.storeError m =>
                        { threw := some ("Failed to sync device "
                            ++ data.deviceId ++ ": " ++ m),
                          writes := [], events := [] }
                    | OpResult.ok =>
                        let updated : Device :=
                          { existing with status := newStatus, updatedAt := now }
                        { threw := none, writes := [updated], events := [] }
  else { threw := none, writes := [], events := [] }

/-! ## Live publisher (`src/infra/adapters/event-grid-publisher.ts`) -/

/-- Outcome the messaging backbone would give to a `client.send` call. -/
inductive SendOutcome where
  | ok
  | err (msg : String)
  deriving DecidableEq, Repr

/-- Constructor options of `EventGridPublisher`. -/
structure EventGridConfig where
  topicEndpoint : String
  key : String
  deriving DecidableEq, Repr

/-- What one `EventGridPublisher.publish` call did: `threw` is the error it
raised to its caller (if any), `attempted` whether `client.send` was invoked,
`delivered` whether the send succeeded. -/
structure PublishResult where
  threw : Option String
  attempted : Bool
  delivered : Bool
  deriving DecidableEq, Repr

namespace EventGridPublisher

/-- The constructor's `isConfigured = !!(options.topicEndpoint && options.key)`
truthiness check (empty strings are falsy). -/
def isConfigured (cfg : EventGridConfig) : Bool :=
  !(cfg.topicEndpoint == "") && !(cfg.key == "")

/-- `EventGridPublisher.publish`: when unconfigured it returns before
touching the client; otherwise it calls `client.send` inside a `try` whose
`catch` only logs — a failed transmission is swallowed and the method still
returns normally. It never throws on any path. -/
def publish (cfg : EventGridConfig) (send : SendOutcome) : PublishResult :=
  if !(isConfigured cfg) then
    { threw := none, attempted := false, delivered := false }
  else
    match send with
    | SendOutcome.ok => { threw := none, attempted := true, delivered := true }
    | SendOutcome.err _ =>
        { threw := none, attempted := true, delivered := false }

end EventGridPublisher

/-! ## Outbox drain loop (`src/functions/process-outbox.ts`) -/

/-- The per-entry body of the drain loop: publish via the live publisher,
then `markAsProcessed`; the `catch` converts an error thrown out of
`publish` into `markAsFailed`. `sendOf` gives the backbone's outcome for the
transmission of a given message id. -/
def processEntry (cfg : EventGridConfig) (sendOf : String → SendOutcome)
    (now : Nat) (store : List OutboxDocument) (m : OutboxMessage) :
    List OutboxDocument :=
  let pr := EventGridPublisher.publish cfg (sendOf m.id)
  match pr.threw with
  | none => CosmosOutboxRepo.markAsProcessed store m.id now
  | some e => CosmosOutboxRepo.markAsFailed store m.id e

/-- `processOutbox` from `process-outbox.ts`: list up to 20 unprocessed
messages once, then process them in order. (The source's unconfigured-check
only logs and the empty-batch check only returns early; neither changes the
resulting store.) -/
def processOutbox (cfg : EventGridConfig) (sendOf : String → SendOutcome)
    (now : Nat) (store : List OutboxDocument) : List OutboxDocument :=
  let messages := CosmosOutboxRepo.listUnprocessed store 20
  messages.foldl (processEntry cfg sendOf now) store

/-! ## Spec-worded failure predicates (for the propagation claim)

The next two definitions are deliberately modelled on the specification's
wording — "an unexpected error during load/save is propagated" — rather than
on the code, so that the propagation behaviour of the embedded handlers can
be compared against them. -/

/-- An unexpected store failure occurred while the reservation path handled
the event: the device load threw, or the device was found needing a status
change and then the device save or the outbox append threw. -/
def reservationUnexpectedStoreFailure (deps : UpdateDeps)
    (target : DeviceStatus) : Prop :=
  (∃ m, deps.getById = LoadResult.storeError m) ∨
  (∃ d, deps.getById = LoadResult.found d ∧ d.status ≠ target ∧
    ((∃ m, deps.saveResult = OpResult.storeError m) ∨
     (deps.saveResult = OpResult.ok ∧
      ∃ m, deps.publishResult = OpResult.storeError m)))

/-- An unexpected store failure occurred while the availability path handled
the event: the device load threw, or the device was found needing a status
change and then the device save threw. -/
def availabilityUnexpectedStoreFailure (adeps : AvailDeps)
    (target : DeviceStatus) : Prop :=
  (∃ m, adeps.getById = LoadResult.storeError m) ∨
  (∃ d, adeps.getById = LoadResult.found d ∧ d.status ≠ target ∧
    ∃ m, adeps.saveResult = OpResult.storeError m)

/-! ## Concrete fixtures used by witnesses and counterexamples -/

/-- A cached device currently Available. -/
def demoDevice : Device :=
  { id := "d1", deviceModelId := "dm1", serialNumber := "SN1", assetId := "A1",
    status := DeviceStatus.Available, condition := "Good", notes := some "n",
    purchaseDate := 100, updatedAt := 200 }

/-- Update dependencies where every store operation succeeds and the load
finds `demoDevice`. -/
def demoDepsOk : UpdateDeps :=
  { getById := LoadResult.found demoDevice, saveResult := OpResult.ok,
    publishResult := OpResult.ok }

/-- Availability-handler dependencies where every store operation succeeds
and the load finds `demoDevice`. -/
def demoAvailDepsOk : AvailDeps :=
  { getById := LoadResult.found demoDevice, saveResult := OpResult.ok }

/-- A reservation payload naming `demoDevice`. -/
def demoReservationData : ReservationEventData :=
  { reservationId := "r1", deviceId := "d1" }

/-- An availability event moving `demoDevice` to Unavailable. -/
def demoAvailEvent : AvailabilityEvent :=
  { eventType := "Availability.Changed",
    data := some { deviceId := "d1", previousStatus := some "Available",
                   newStatus := "Unavailable", reservationId := none,
                   updatedAt := "2026-01-01T00:00:00Z" } }

/-- A reservation-created event naming `demoDevice`. -/
def demoReservationEvent : ReservationEvent :=
  { eventType := "Reservation.Created", data := some demoReservationData }

/-- An availability payload whose target status equals `demoDevice`'s
current status (a duplicate delivery). -/
def demoAvailDataSame : AvailabilityEventData :=
  { deviceId := "d1", previousStatus := some "Unavailable",
    newStatus := "Available", reservationId := none,
    updatedAt := "2026-01-01T00:00:00Z" }

/-- The availability event wrapping `demoAvailDataSame`. -/
def demoAvailEventSame : AvailabilityEvent :=
  { eventType := "Availability.Changed", data := some demoAvailDataSame }

/-- The device value written when `demoDevice` moves to Unavailable at 42. -/
def demoUpdatedDevice : Device :=
  { demoDevice with status := DeviceStatus.Unavailable, updatedAt := 42 }

/-- First unprocessed outbox document of the drain fixture. -/
def baseDoc : OutboxDocument :=
  { id := "m1", topic := "Catalogue",
    eventType := "Catalogue.Device.StatusChanged", subject := "d1",
    data := "p1", dataVersion := "1.0", eventTime := 1, processed := false,
    processedAt := none, error := none, retryCount := 0, ttl := none }

/-- Second unprocessed outbox document. -/
def midDoc : OutboxDocument := { baseDoc with id := "m2", eventTime := 2 }

/-- Third unprocessed outbox document. -/
def lastDoc : OutboxDocument := { baseDoc with id := "m3", eventTime := 3 }

/-- A three-entry outbox store, all unprocessed, in eventTime order. -/
def drainStore : List OutboxDocument := [baseDoc, midDoc, lastDoc]

/-- An outbox document that previously failed delivery twice. -/
def failedDoc : OutboxDocument :=
  { baseDoc with eventTime := 10, error := some "boom", retryCount := 2 }

/-- A fully configured live-publisher configuration. -/
def cfgOk : EventGridConfig :=
  { topicEndpoint := "https://topic.example", key := "k1" }

/-- An unconfigured live-publisher configuration (no endpoint, no key). -/
def cfgEmpty : EventGridConfig := { topicEndpoint := "", key := "" }

/-- A backbone that rejects the transmission of message `m2` only. -/
def sendFailM2 : String → SendOutcome :=
  fun i => if i = "m2" then SendOutcome.err "transmission failed"
    else SendOutcome.ok

/-- The domain view of `baseDoc`, as returned by `listUnprocessed`. -/
def demoListedMsg : OutboxMessage := CosmosOutboxRepo.mapToDomain baseDoc

/-! ## Helper lemmas -/

/-- Replacing the document that a successful point read found leaves exactly
the replacement under the same id lookup. -/
theorem find?_replaceItem (store : List OutboxDocument)
    (rnew : OutboxDocument) (i : String) (hid : rnew.id = i)
    (h : (store.find? (fun d => d.id == i)).isSome = true) :
    (CosmosOutboxRepo.replaceItem store rnew).find? (fun d => d.id == i)
      = some rnew := by
  induction store with
  | nil => simp at h
  | cons a t ih =>
      by_cases ha : a.id = i
      · have hb : (a.id == rnew.id) = true := by simp [hid, ha]
        simp only [CosmosOutboxRepo.replaceItem, List.map_cons, hb, if_true]
        exact List.find?_cons_of_pos _ (by simp [hid])
      · have hb : (a.id == rnew.id) = false := by
          simp only [hid, beq_eq_false_iff_ne, ne_eq]
          exact ha
        have hp : (a.id == i) = false := by
          simp only [beq_eq_false_iff_ne, ne_eq]
          exact ha
        simp only [CosmosOutboxRepo.replaceItem, List.map_cons, hb,
          Bool.false_eq_true, if_false]
        rw [List.find?_cons_of_neg _ (by simp [ha])]
        have h2 : (t.find? (fun d => d.id == i)).isSome = true := by
          rw [List.find?_cons_of_neg _ (by simp [ha])] at h
          exact h
        exact ih h2

/-! ## C4: listUnprocessed batch contract -/

/-- C4: for every outbox-store state and every batch size N,
`listUnprocessed(N)` returns at most N entries, every returned entry has
`processed = false`, and `eventTime` is non-decreasing across the returned
sequence. -/
theorem listUnprocessed_spec (store : List OutboxDocument) (N : Nat) :
    (CosmosOutboxRepo.listUnprocessed store N).length ≤ N ∧
    (∀ m ∈ CosmosOutboxRepo.listUnprocessed store N, m.processed = false) ∧
    (CosmosOutboxRepo.listUnprocessed store N).Pairwise
      (fun a b => a.eventTime ≤ b.eventTime) := by
  unfold CosmosOutboxRepo.listUnprocessed
  refine ⟨?_, ?_, ?_⟩
  · rw [List.length_map]
    exact List.length_take_le N _
  · intro m hm
    rw [List.mem_map] at hm
    obtain ⟨doc, hdoc, rfl⟩ := hm
    have h1 : doc ∈ (store.filter (fun d => !d.processed)).insertionSort
        CosmosOutboxRepo.byEventTime := List.mem_of_mem_take hdoc
    have h2 : doc ∈ store.filter (fun d => !d.processed) :=
      (List.perm_insertionSort CosmosOutboxRepo.byEventTime _).mem_iff.mp h1
    have h3 := List.of_mem_filter h2
    simp only [Bool.not_eq_true'] at h3
    simpa [CosmosOutboxRepo.mapToDomain] using h3
  · have hs : ((store.filter (fun d => !d.processed)).insertionSort
        CosmosOutboxRepo.byEventTime).Pairwise CosmosOutboxRepo.byEventTime :=
      List.sorted_insertionSort CosmosOutboxRepo.byEventTime _
    have ht := hs.sublist (List.take_sublist N _)
    rw [List.pairwise_map]
    exact ht.imp (fun h => h)

/-- Witness for C4 at a concrete store: the earliest unprocessed document is
returned by `listUnprocessed drainStore 2` and is unprocessed. -/
theorem listUnprocessed_spec_witness : demoListedMsg.processed = false :=
  (listUnprocessed_spec drainStore 2).2.1 demoListedMsg (by decide)

/-! ## C5: markAsFailed contract -/

/-- C5: for every outbox entry present in the store, `markAsFailed(id, e)`
increments its `retryCount` by exactly 1, records `e` as its error, and
leaves `processed = false`, so `retryCount` strictly increases. -/
theorem markAsFailed_spec (store : List OutboxDocument) (i e : String)
    (r : OutboxDocument)
    (hfind : store.find? (fun d => d.id == i) = some r)
    (hunproc : r.processed = false) :
    (CosmosOutboxRepo.markAsFailed store i e).find? (fun d => d.id == i)
      = some (CosmosOutboxRepo.failedUpdate r e) ∧
    (CosmosOutboxRepo.failedUpdate r e).retryCount = r.retryCount + 1 ∧
    (CosmosOutboxRepo.failedUpdate r e).error = some e ∧
    (CosmosOutboxRepo.failedUpdate r e).processed = false ∧
    r.retryCount < (CosmosOutboxRepo.failedUpdate r e).retryCount := by
  have hid : r.id = i := by
    have := List.find?_some hfind
    simpa using this
  refine ⟨?_, rfl, rfl, by simpa [CosmosOutboxRepo.failedUpdate] using hunproc,
    Nat.lt_succ_self _⟩
  unfold CosmosOutboxRepo.markAsFailed CosmosOutboxRepo.readItem
  rw [hfind]
  exact find?_replaceItem store _ i (by simpa using hid) (by simp [hfind])

/-- Witness for C5: marking the twice-failed fixture document as failed once
more yields retryCount 3, the new error message, still unprocessed. -/
theorem markAsFailed_spec_witness :
    (CosmosOutboxRepo.markAsFailed [failedDoc] "m1" "timeout").find?
        (fun d => d.id == "m1")
      = some (CosmosOutboxRepo.failedUpdate failedDoc "timeout") :=
  (markAsFailed_spec [failedDoc] "m1" "timeout" failedDoc (by decide)
    (by decide)).1

/-! ## C6: markAsProcessed and the error field -/

/-- C6 counterexample: `markAsProcessed` on a previously failed entry sets
`processed`, `processedAt` and the retention `ttl` but leaves
`error = some "boom"` — the error field is not cleared on success, contrary
to the claim. -/
theorem markAsProcessed_keeps_error_counterexample :
    CosmosOutboxRepo.markAsProcessed [failedDoc] "m1" 99
      = [CosmosOutboxRepo.processedUpdate failedDoc 99] ∧
    (CosmosOutboxRepo.processedUpdate failedDoc 99).processed = true ∧
    (CosmosOutboxRepo.processedUpdate failedDoc 99).error = some "boom" := by
  decide

/-- C6 (amended): for every outbox entry present in the store,
`markAsProcessed(id)` sets `processed = true`, `processedAt = now` and a
7-day retention `ttl`, and leaves the `error` field unchanged (a previous
failure message is not cleared on success). -/
theorem markAsProcessed_spec (store : List OutboxDocument) (i : String)
    (now : Nat) (r : OutboxDocument)
    (hfind : store.find? (fun d => d.id == i) = some r) :
    (CosmosOutboxRepo.markAsProcessed store i now).find? (fun d => d.id == i)
      = some (CosmosOutboxRepo.processedUpdate r now) ∧
    (CosmosOutboxRepo.processedUpdate r now).processed = true ∧
    (CosmosOutboxRepo.processedUpdate r now).processedAt = some now ∧
    (CosmosOutboxRepo.processedUpdate r now).ttl = some (60 * 60 * 24 * 7) ∧
    (CosmosOutboxRepo.processedUpdate r now).error = r.error := by
  have hid : r.id = i := by
    have := List.find?_some hfind
    simpa using this
  refine ⟨?_, rfl, rfl, rfl, rfl⟩
  unfold CosmosOutboxRepo.markAsProcessed CosmosOutboxRepo.readItem
  rw [hfind]
  exact find?_replaceItem store _ i (by simpa using hid) (by simp [hfind])

/-- Witness for the amended C6: processing the failed fixture document sets
the delivery flags and retention while the old error text survives. -/
theorem markAsProcessed_spec_witness :
    (CosmosOutboxRepo.markAsProcessed [failedDoc] "m1" 77).find?
        (fun d => d.id == "m1")
      = some (CosmosOutboxRepo.processedUpdate failedDoc 77) :=
  (markAsProcessed_spec [failedDoc] "m1" 77 failedDoc (by decide)).1

/-! ## C1: drain-loop handling of a failed transmission -/

/-- C1 (code-bug evidence): in a drain tick over three unprocessed entries
where the backbone rejects the transmission of the 2nd, the live publisher's
`catch` swallows the send error and `publish` still resolves (second
conjunct), so the loop's failure branch is unreachable and all three entries
are marked processed: entry `m2` ends with `processed = true`,
`retryCount = 0` and no recorded error, not `processed = false`,
`retryCount = 1` with an error as the claim (and the publisher's own comment
and the spec scenario) state. -/
theorem processOutbox_second_send_fails_all_marked_processed :
    (processOutbox cfgOk sendFailM2 100 drainStore).map
        (fun d => (d.id, d.processed, d.retryCount, d.error))
      = [("m1", true, 0, none), ("m2", true, 0, none), ("m3", true, 0, none)] ∧
    EventGridPublisher.publish cfgOk (SendOutcome.err "transmission failed")
      = { threw := none, attempted := true, delivered := false } := by
  decide

/-! ## C9: unconfigured live publisher -/

/-- C9 (code-bug evidence): with no transmission credentials, `publish` is
indeed a silent no-op — it returns normally without attempting transmission
and never throws (first conjunct) — but as a consequence the drain tick still
runs `markAsProcessed` after each no-op publish, so pending messages do NOT
stay unprocessed in the outbox store: all three fixture entries end with
`processed = true` despite never being transmitted, contradicting both the
claim and the drain loop's own log line that unpublished messages accumulate. -/
theorem processOutbox_unconfigured_marks_processed :
    EventGridPublisher.publish cfgEmpty (SendOutcome.err "no endpoint")
      = { threw := none, attempted := false, delivered := false } ∧
    (processOutbox cfgEmpty (fun _ => SendOutcome.err "no endpoint") 100
        drainStore).map (fun d => (d.id, d.processed))
      = [("m1", true), ("m2", true), ("m3", true)] := by
  decide

/-! ## C7: reservation event-type mapping -/

/-- C7: the reservation mapping is exactly Created ↦ Unavailable,
Collected ↦ Unavailable, Returned ↦ Available, Cancelled ↦ Available,
Expired ↦ Available, and every other event type maps to no-op: for any
payload and store outcomes the handler performs no write, publishes nothing
and raises nothing. -/
theorem getDeviceStatusFromEvent_spec :
    getDeviceStatusFromEvent "Reservation.Created"
      = some DeviceStatus.Unavailable ∧
    getDeviceStatusFromEvent "Reservation.Collected"
      = some DeviceStatus.Unavailable ∧
    getDeviceStatusFromEvent "Reservation.Returned"
      = some DeviceStatus.Available ∧
    getDeviceStatusFromEvent "Reservation.Cancelled"
      = some DeviceStatus.Available ∧
    getDeviceStatusFromEvent "Reservation.Expired"
      = some DeviceStatus.Available ∧
    ∀ t : String,
      t ∉ ["Reservation.Created", "Reservation.Collected",
           "Reservation.Returned", "Reservation.Cancelled",
           "Reservation.Expired"] →
      getDeviceStatusFromEvent t = none ∧
      ∀ (deps : UpdateDeps) (data : Option ReservationEventData) (now : Nat),
        handleReservationEvent deps { eventType := t, data := data } now
          = { threw := none, writes := [], events := [] } := by
  refine ⟨by decide, by decide, by decide, by decide, by decide, ?_⟩
  intro t ht
  simp only [List.mem_cons, List.not_mem_nil, or_false, not_or] at ht
  obtain ⟨h1, h2, h3, h4, h5⟩ := ht
  have hmap : getDeviceStatusFromEvent t = none := by
    simp [getDeviceStatusFromEvent, h1, h2, h3, h4, h5]
  refine ⟨hmap, ?_⟩
  intro deps data now
  cases data with
  | none => simp [handleReservationEvent]
  | some d =>
      by_cases hd : d.deviceId = "" <;>
        simp [handleReservationEvent, hmap, hd]

/-- Witness for C7 at a concrete unmapped event type: an
`Availability.Changed` event delivered to the reservation handler maps to
no-op and produces no write, no event and no error even with a found device
and all stores healthy. -/
theorem getDeviceStatusFromEvent_spec_witness :
    getDeviceStatusFromEvent "Availability.Changed" = none ∧
    handleReservationEvent demoDepsOk
        { eventType := "Availability.Changed", data := some demoReservationData }
        42
      = { threw := none, writes := [], events := [] } :=
  ⟨(getDeviceStatusFromEvent_spec.2.2.2.2.2 "Availability.Changed"
      (by decide)).1,
   (getDeviceStatusFromEvent_spec.2.2.2.2.2 "Availability.Changed"
      (by decide)).2 demoDepsOk (some demoReservationData) 42⟩

/-! ## C3: idempotent reconciliation -/

/-- C3: status reconciliation is idempotent: when the loaded device's status
already equals the target status, the update use case performs zero device
writes and emits zero StatusChanged events and returns the unchanged device
(so `updatedAt` is not refreshed), and the availability handler likewise
performs zero writes and emits nothing. -/
theorem statusReconciliation_idempotent (deps : UpdateDeps) (adeps : AvailDeps)
    (i : String) (target : DeviceStatus) (now : Nat) (d d2 : Device)
    (aev : AvailabilityEvent) (ad : AvailabilityEventData)
    (hfound : deps.getById = LoadResult.found d) (hsame : d.status = target)
    (hadata : aev.data = some ad)
    (hfound2 : adeps.getById = LoadResult.found d2)
    (hsame2 : mapToDeviceStatus ad.newStatus = some d2.status) :
    (updateDeviceStatus deps i target now).writes = [] ∧
    (updateDeviceStatus deps i target now).events = [] ∧
    (updateDeviceStatus deps i target now).result.success = true ∧
    (updateDeviceStatus deps i target now).result.data = some d ∧
    (handleAvailabilityEvent adeps aev now).writes = [] ∧
    (handleAvailabilityEvent adeps aev now).events = [] ∧
    (handleAvailabilityEvent adeps aev now).threw = none := by
  have hA : handleAvailabilityEvent adeps aev now
      = { threw := none, writes := [], events := [] } := by
    by_cases hty : aev.eventType = "Availability.Changed" <;>
    by_cases hdev : ad.deviceId = "" <;>
    by_cases hns : ad.newStatus = "" <;>
    simp [handleAvailabilityEvent, hadata, hty, hdev, hns, hsame2, hfound2]
  refine ⟨?_, ?_, ?_, ?_, by rw [hA], by rw [hA], by rw [hA]⟩ <;>
    simp [updateDeviceStatus, hfound, hsame]

/-- Witness for C3: a duplicate Reservation.Returned for the Available
`demoDevice` and a duplicate Availability.Changed(Available) both leave the
store untouched and emit nothing. -/
theorem statusReconciliation_idempotent_witness :
    (updateDeviceStatus demoDepsOk "d1" DeviceStatus.Available 42).writes = []
      ∧ (updateDeviceStatus demoDepsOk "d1" DeviceStatus.Available 42).events
        = []
      ∧ (updateDeviceStatus demoDepsOk "d1"
          DeviceStatus.Available 42).result.success = true
      ∧ (updateDeviceStatus demoDepsOk "d1"
          DeviceStatus.Available 42).result.data = some demoDevice
      ∧ (handleAvailabilityEvent demoAvailDepsOk demoAvailEventSame 42).writes
        = []
      ∧ (handleAvailabilityEvent demoAvailDepsOk demoAvailEventSame 42).events
        = []
      ∧ (handleAvailabilityEvent demoAvailDepsOk demoAvailEventSame 42).threw
        = none :=
  statusReconciliation_idempotent demoDepsOk demoAvailDepsOk "d1"
    DeviceStatus.Available 42 demoDevice demoDevice demoAvailEventSame
    demoAvailDataSame (by decide) (by decide) (by decide) (by decide)
    (by decide)

/-! ## C2: persist and emit on a status change -/

/-- C2 counterexample: an Availability.Changed event that moves `demoDevice`
from Available to Unavailable is persisted by the availability handler with a
refreshed `updatedAt`, yet zero StatusChanged events are emitted — the
availability handler never publishes (it has no event publisher), refuting
the claim for the availability source. -/
theorem availability_change_emits_no_event_counterexample :
    (handleAvailabilityEvent demoAvailDepsOk demoAvailEvent 42).writes
      = [demoUpdatedDevice] ∧
    (handleAvailabilityEvent demoAvailDepsOk demoAvailEvent 42).events
      = [] := by decide

/-- C2 (amended): on a status change, the reservation path (via
`updateDeviceStatus`) persists the device with the new status and a
refreshed `updatedAt` and emits one `Catalogue.Device.StatusChanged` event
carrying the device id, previous status, new status and timestamp; the
availability handler persists the device with the new status and a refreshed
`updatedAt` but emits no event. -/
theorem statusChange_persist_and_emit (deps : UpdateDeps) (adeps : AvailDeps)
    (i : String) (target atarget : DeviceStatus) (now : Nat) (d d2 : Device)
    (aev : AvailabilityEvent) (ad : AvailabilityEventData)
    (hfound : deps.getById = LoadResult.found d) (hdiff : d.status ≠ target)
    (hsave : deps.saveResult = OpResult.ok)
    (hpub : deps.publishResult = OpResult.ok)
    (haty : aev.eventType = "Availability.Changed")
    (hadata : aev.data = some ad) (hadev : ad.deviceId ≠ "")
    (hamap : mapToDeviceStatus ad.newStatus = some atarget)
    (hfound2 : adeps.getById = LoadResult.found d2)
    (hdiff2 : d2.status ≠ atarget)
    (hsave2 : adeps.saveResult = OpResult.ok) :
    (updateDeviceStatus deps i target now).writes
      = [{ d with status := target, updatedAt := now }] ∧
    (updateDeviceStatus deps i target now).events
      = [{ topic := "Catalogue", eventType := "Catalogue.Device.StatusChanged",
           subject := d.id, deviceId := d.id, previousStatus := d.status,
           newStatus := target, updatedAt := now }] ∧
    (handleAvailabilityEvent adeps aev now).writes
      = [{ d2 with status := atarget, updatedAt := now }] ∧
    (handleAvailabilityEvent adeps aev now).events = [] := by
  have hns : ad.newStatus ≠ "" := by
    intro h
    rw [h] at hamap
    simp [mapToDeviceStatus] at hamap
  refine ⟨?_, ?_, ?_, ?_⟩ <;>
    simp [updateDeviceStatus, handleAvailabilityEvent, hfound, hdiff, hsave,
      hpub, haty, hadata, hadev, hamap, hfound2, hdiff2, hsave2, hns]

/-- Witness for the amended C2: a Reservation.Created-style update of
`demoDevice` to Unavailable persists and emits one StatusChanged event, and
the concrete Availability.Changed fixture persists without emitting. -/
theorem statusChange_persist_and_emit_witness :
    (updateDeviceStatus demoDepsOk "d1" DeviceStatus.Unavailable 42).writes
      = [demoUpdatedDevice]
      ∧ (updateDeviceStatus demoDepsOk "d1" DeviceStatus.Unavailable 42).events
        = [{ topic := "Catalogue",
             eventType := "Catalogue.Device.StatusChanged", subject := "d1",
             deviceId := "d1", previousStatus := DeviceStatus.Available,
             newStatus := DeviceStatus.Unavailable, updatedAt := 42 }]
      ∧ (handleAvailabilityEvent demoAvailDepsOk demoAvailEvent 42).writes
        = [demoUpdatedDevice]
      ∧ (handleAvailabilityEvent demoAvailDepsOk demoAvailEvent 42).events
        = [] := by
  have h := statusChange_persist_and_emit demoDepsOk demoAvailDepsOk "d1"
    DeviceStatus.Unavailable DeviceStatus.Unavailable 42 demoDevice demoDevice
    demoAvailEvent
    { deviceId := "d1", previousStatus := some "Available",
      newStatus := "Unavailable", reservationId := none,
      updatedAt := "2026-01-01T00:00:00Z" }
    (by decide) (by decide) (by decide) (by decide) (by decide) (by decide)
    (by decide) (by decide) (by decide) (by decide) (by decide)
  refine ⟨?_, ?_, ?_, h.2.2.2⟩
  · rw [h.1]
    decide
  · rw [h.2.1]
    simp [demoDevice]
  · rw [h.2.2.1]
    decide

/-! ## C10: frame condition of a status write -/

/-- C10: whenever a reconciliation path writes a device, every field other
than `status` and `updatedAt` (id, deviceModelId, serialNumber, assetId,
condition, notes, purchaseDate) is carried over unchanged from the loaded
device record, both in `updateDeviceStatus` and in the availability handler. -/
theorem statusWrite_frame (deps : UpdateDeps) (adeps : AvailDeps) (i : String)
    (target : DeviceStatus) (now : Nat) (d d2 : Device)
    (aev : AvailabilityEvent)
    (hfound : deps.getById = LoadResult.found d)
    (hfound2 : adeps.getById = LoadResult.found d2) :
    (∀ w ∈ (updateDeviceStatus deps i target now).writes,
      w.id = d.id ∧ w.deviceModelId = d.deviceModelId ∧
      w.serialNumber = d.serialNumber ∧ w.assetId = d.assetId ∧
      w.condition = d.condition ∧ w.notes = d.notes ∧
      w.purchaseDate = d.purchaseDate) ∧
    (∀ w ∈ (handleAvailabilityEvent adeps aev now).writes,
      w.id = d2.id ∧ w.deviceModelId = d2.deviceModelId ∧
      w.serialNumber = d2.serialNumber ∧ w.assetId = d2.assetId ∧
      w.condition = d2.condition ∧ w.notes = d2.notes ∧
      w.purchaseDate = d2.purchaseDate) := by
  constructor
  · intro w hw
    by_cases hst : d.status = target
    · simp [updateDeviceStatus, hfound, hst] at hw
    · rcases hsr : deps.saveResult with _ | m
      · rcases hpr : deps.publishResult with _ | m2
        · simp [updateDeviceStatus, hfound, hst, hsr, hpr] at hw
          subst hw
          exact ⟨rfl, rfl, rfl, rfl, rfl, rfl, rfl⟩
        · simp [updateDeviceStatus, hfound, hst, hsr, hpr] at hw
          subst hw
          exact ⟨rfl, rfl, rfl, rfl, rfl, rfl, rfl⟩
      · simp [updateDeviceStatus, hfound, hst, hsr] at hw
  · intro w hw
    by_cases hty : aev.eventType = "Availability.Changed"
    · rcases had : aev.data with _ | ad
      · simp [handleAvailabilityEvent, hty, had] at hw
      · by_cases hdev : ad.deviceId = ""
        · simp [handleAvailabilityEvent, hty, had, hdev] at hw
        · by_cases hns : ad.newStatus = ""
          · simp [handleAvailabilityEvent, hty, had, hdev, hns] at hw
          · rcases hm : mapToDeviceStatus ad.newStatus with _ | t
            · simp [handleAvailabilityEvent, hty, had, hdev, hns, hm] at hw
            · by_cases hst : d2.status = t
              · simp [handleAvailabilityEvent, hty, had, hdev, hns, hm,
                  hfound2, hst] at hw
              · rcases hsr : adeps.saveResult with _ | m
                · simp [handleAvailabilityEvent, hty, had, hdev, hns, hm,
                    hfound2, hst, hsr] at hw
                  subst hw
                  exact ⟨rfl, rfl, rfl, rfl, rfl, rfl, rfl⟩
                · simp [handleAvailabilityEvent, hty, had, hdev, hns, hm,
                    hfound2, hst, hsr] at hw
    · simp [handleAvailabilityEvent, hty] at hw

/-- Witness for C10: the concrete write produced by moving `demoDevice` to
Unavailable carries over all frame fields of `demoDevice`. -/
theorem statusWrite_frame_witness :
    demoUpdatedDevice.id = demoDevice.id
      ∧ demoUpdatedDevice.deviceModelId = demoDevice.deviceModelId
      ∧ demoUpdatedDevice.serialNumber = demoDevice.serialNumber
      ∧ demoUpdatedDevice.assetId = demoDevice.assetId
      ∧ demoUpdatedDevice.condition = demoDevice.condition
      ∧ demoUpdatedDevice.notes = demoDevice.notes
      ∧ demoUpdatedDevice.purchaseDate = demoDevice.purchaseDate :=
  (statusWrite_frame demoDepsOk demoAvailDepsOk "d1"
      DeviceStatus.Unavailable 42 demoDevice demoDevice demoAvailEvent
      (by decide) (by decide)).1
    demoUpdatedDevice (by decide)

/-! ## C8: error propagation of the reconciliation handlers -/

/-- C8: for a valid, mapped inbound event, a reconciliation handler raises an
error to the delivery mechanism if and only if an unexpected store failure
occurred during load or save; a device id absent from the store completes
normally with no write attempted and nothing raised, on both the reservation
path and the availability path. -/
theorem reconciliation_error_propagation (deps : UpdateDeps)
    (adeps : AvailDeps) (ev : ReservationEvent) (rd : ReservationEventData)
    (target atarget : DeviceStatus) (aev : AvailabilityEvent)
    (ad : AvailabilityEventData) (now : Nat)
    (hdata : ev.data = some rd) (hdev : rd.deviceId ≠ "")
    (hmap : getDeviceStatusFromEvent ev.eventType = some target)
    (haty : aev.eventType = "Availability.Changed")
    (hadata : aev.data = some ad) (hadev : ad.deviceId ≠ "")
    (hamap : mapToDeviceStatus ad.newStatus = some atarget) :
    (deps.getById = LoadResult.notFound →
      handleReservationEvent deps ev now
        = { threw := none, writes := [], events := [] }) ∧
    ((handleReservationEvent deps ev now).threw ≠ none ↔
      reservationUnexpectedStoreFailure deps target) ∧
    (adeps.getById = LoadResult.notFound →
      handleAvailabilityEvent adeps aev now
        = { threw := none, writes := [], events := [] }) ∧
    ((handleAvailabilityEvent adeps aev now).threw ≠ none ↔
      availabilityUnexpectedStoreFailure adeps atarget) := by
  have hns : ad.newStatus ≠ "" := by
    intro h
    rw [h] at hamap
    simp [mapToDeviceStatus] at hamap
  refine ⟨?_, ?_, ?_, ?_⟩
  · intro hnf
    simp [handleReservationEvent, hdata, hdev, hmap, updateDeviceStatus, hnf]
  · rcases hg : deps.getById with d | _ | m
    · by_cases hst : d.status = target
      · simp [handleReservationEvent, hdata, hdev, hmap, updateDeviceStatus,
          hg, hst, reservationUnexpectedStoreFailure]
      · rcases hs : deps.saveResult with _ | m1
        · rcases hp : deps.publishResult with _ | m2
          · simp [handleReservationEvent, hdata, hdev, hmap,
              updateDeviceStatus, hg, hst, hs, hp,
              reservationUnexpectedStoreFailure]
          · simp [handleReservationEvent, hdata, hdev, hmap,
              updateDeviceStatus, hg, hst, hs, hp,
              reservationUnexpectedStoreFailure]
        · simp [handleReservationEvent, hdata, hdev, hmap,
            updateDeviceStatus, hg, hst, hs,
            reservationUnexpectedStoreFailure]
    · simp [handleReservationEvent, hdata, hdev, hmap, updateDeviceStatus,
        hg, reservationUnexpectedStoreFailure]
    · simp [handleReservationEvent, hdata, hdev, hmap, updateDeviceStatus,
        hg, reservationUnexpectedStoreFailure]
  · intro hnf
    simp [handleAvailabilityEvent, haty, hadata, hadev, hns, hamap, hnf]
  · rcases hg : adeps.getById with d | _ | m
    · by_cases hst : d.status = atarget
      · simp [handleAvailabilityEvent, haty, hadata, hadev, hns, hamap, hg,
          hst, availabilityUnexpectedStoreFailure]
      · rcases hs : adeps.saveResult with _ | m1
        · simp [handleAvailabilityEvent, haty, hadata, hadev, hns, hamap,
            hg, hst, hs, availabilityUnexpectedStoreFailure]
        · simp [handleAvailabilityEvent, haty, hadata, hadev, hns, hamap,
            hg, hst, hs, availabilityUnexpectedStoreFailure]
    · simp [handleAvailabilityEvent, haty, hadata, hadev, hns, hamap, hg,
        availabilityUnexpectedStoreFailure]
    · simp [handleAvailabilityEvent, haty, hadata, hadev, hns, hamap, hg,
        availabilityUnexpectedStoreFailure]

/-- Witness for C8 at concrete healthy dependencies: with every store
operation succeeding, neither handler raises, matching the absence of any
store failure. -/
theorem reconciliation_error_propagation_witness :
    ((handleReservationEvent demoDepsOk demoReservationEvent 42).threw ≠ none
      ↔ reservationUnexpectedStoreFailure demoDepsOk DeviceStatus.Unavailable)
    ∧ ((handleAvailabilityEvent demoAvailDepsOk demoAvailEvent 42).threw
        ≠ none
      ↔ availabilityUnexpectedStoreFailure demoAvailDepsOk
          DeviceStatus.Unavailable) :=
  have h := reconciliation_error_propagation demoDepsOk demoAvailDepsOk
    demoReservationEvent demoReservationData DeviceStatus.Unavailable
    DeviceStatus.Unavailable demoAvailEvent
    { deviceId := "d1", previousStatus := some "Available",
      newStatus := "Unavailable", reservationId := none,
      updatedAt := "2026-01-01T00:00:00Z" }
    42 (by decide) (by decide) (by decide) (by decide) (by decide)
    (by decide) (by decide)
  ⟨h.2.1, h.2.2.2⟩
